import Mathlib

/-!
Shallow embedding of the typing-session data-capture and metrics pipeline
of the elephantype repository (src/app/lib/dataCapture.ts, bundled in
src/app/components/TypingTest.tsx, and the useTypingData hook in
src/app/lib/types.ts).

JavaScript numbers are modelled as `Int` (timestamps, delays) and `ℚ`/`ℝ`
(derived metrics); `null` becomes `Option`; JS truthiness tests on numbers
(`x ? a : b`) become explicit `= 0` / `= none` case splits; the JS object
`Record<string, number>` used for `problemKeys` becomes an insertion-ordered
association list `List (String × Nat)`.  `Date.now()` and `uuidv4()` are
threaded as explicit parameters (`now`, `newId`).
-/

namespace ElephantType

/-- The three keyboard event kinds of `KeystrokeData.actionType`. -/
inductive ActionType
  | keydown
  | keyup
  | keypress
deriving DecidableEq, Repr

/-- The `completionStatus` values of `SessionMetadata`. -/
inductive CompletionStatus
  | completed
  | abandoned
  | inProgress
deriving DecidableEq, Repr

/-- Environment snapshot (`TypingEnvironment` in src/app/lib/types.ts). -/
structure TypingEnvironment where
  deviceType : String
  browserName : String
  browserVersion : String
  operatingSystem : String
  screenWidth : Nat
  screenHeight : Nat
  keyboardLayout : String
  inputMethod : String
deriving DecidableEq, Repr

/-- One keystroke event (`KeystrokeData` in src/app/lib/types.ts). -/
structure KeystrokeData where
  id : String
  timestamp : Int
  key : String
  expectedKey : Option String
  isCorrect : Bool
  position : Nat
  actionType : ActionType
  interKeyDelay : Option Int
deriving DecidableEq, Repr

/-- Session metadata (`SessionMetadata` in src/app/lib/types.ts). -/
structure SessionMetadata where
  sessionId : String
  startTime : Int
  endTime : Option Int
  textPrompt : String
  userTranscript : String
  completionStatus : CompletionStatus
  duration : Option Int
  deviceInfo : TypingEnvironment
deriving DecidableEq, Repr

/-- Derived metrics (`TypingMetrics` in src/app/lib/types.ts).
`problemKeys` is the JS object modelled as an insertion-ordered
association list. -/
structure TypingMetrics where
  wpm : ℚ
  accuracy : ℚ
  errorRate : ℚ
  totalKeystrokes : Nat
  correctKeystrokes : Nat
  errorKeystrokes : Nat
  consistency : ℝ
  problemKeys : List (String × Nat)

/-- The exported aggregate (`TypingSessionData` in src/app/lib/types.ts). -/
structure TypingSessionData where
  metadata : SessionMetadata
  keystrokes : List KeystrokeData
  metrics : TypingMetrics

/-- `initializeSession` from dataCapture.ts: fresh in-progress metadata.
`sid`, `now`, `env` stand for `uuidv4()`, `Date.now()`,
`captureEnvironmentInfo()`. -/
def initializeSession (textPrompt : String) (sid : String) (now : Int)
    (env : TypingEnvironment) : SessionMetadata :=
  { sessionId := sid
    startTime := now
    endTime := none
    textPrompt := textPrompt
    userTranscript := ""
    completionStatus := .inProgress
    duration := none
    deviceInfo := env }

/-- `recordKeystroke` from dataCapture.ts.  `newId` and `now` stand for
`uuidv4()` and `Date.now()`.  `isCorrect` is `key === expectedKey` (false
when `expectedKey` is null).  `interKeyDelay` is
`lastKeystrokeTime ? timestamp - lastKeystrokeTime : null`: the JS
truthiness test makes a previous timestamp of `0` behave like `null`. -/
def recordKeystroke (newId : String) (now : Int) (key : String)
    (expectedKey : Option String) (position : Nat) (actionType : ActionType)
    (lastKeystrokeTime : Option Int) : KeystrokeData :=
  { id := newId
    timestamp := now
    key := key
    expectedKey := expectedKey
    isCorrect := decide (some key = expectedKey)
    position := position
    actionType := actionType
    interKeyDelay :=
      match lastKeystrokeTime with
      | some t => if t = 0 then none else some (now - t)
      | none => none }

/-- `finalizeSession` from dataCapture.ts: overwrites end time, transcript,
status and duration unconditionally (no check of the current status). -/
def finalizeSession (sessionMetadata : SessionMetadata) (userTranscript : String)
    (completionStatus : CompletionStatus) (now : Int) : SessionMetadata :=
  { sessionMetadata with
    endTime := some now
    userTranscript := userTranscript
    completionStatus := completionStatus
    duration := some (now - sessionMetadata.startTime) }

/-- The filter at the top of `calculateMetrics`:
`k.actionType === 'keypress' && k.key.length === 1`. -/
def typingKeystrokes (keystrokes : List KeystrokeData) : List KeystrokeData :=
  keystrokes.filter
    (fun k => decide (k.actionType = ActionType.keypress ∧ k.key.length = 1))

/-- The delay list of `calculateMetrics`:
`typingKeystrokes.filter(k => k.interKeyDelay !== null).map(k => k.interKeyDelay as number)`,
with the number cast into ℚ (the field over which the metrics arithmetic
is modelled). -/
def interKeyDelays (keystrokes : List KeystrokeData) : List ℚ :=
  ((((typingKeystrokes keystrokes).filter
      (fun k => decide (k.interKeyDelay ≠ none))).filterMap
      (fun k => k.interKeyDelay)).map fun d => (d : ℚ))

/-- JS `array.reduce((sum, x) => sum + x, 0)`. -/
def jsSum (l : List ℚ) : ℚ := l.foldl (fun s d => s + d) 0

/-- Lookup in the association-list model of the `problemKeys` object:
value stored for key `k`, or 0 when absent (`problemKeys[k]` undefined). -/
def getCount : List (String × Nat) → String → Nat
  | [], _ => 0
  | p :: rest, k => if p.1 = k then p.2 else getCount rest k

/-- Membership in the association-list model of the `problemKeys` object:
whether key `k` has an entry. -/
def hasKey : List (String × Nat) → String → Bool
  | [], _ => false
  | p :: rest, k => decide (p.1 = k) || hasKey rest k

/-- One step of the `problemKeys` accumulation:
`if (!problemKeys[key]) problemKeys[key] = 0; problemKeys[key]++` on a JS
object — an existing entry is incremented in place, a missing key is
appended at the end with count 1. -/
def bumpKey : List (String × Nat) → String → List (String × Nat)
  | [], k => [(k, 1)]
  | p :: rest, k =>
      if p.1 = k then (p.1, p.2 + 1) :: rest else p :: bumpKey rest k

/-- Body of the `typingKeystrokes.forEach` loop of `calculateMetrics`:
`if (!keystroke.isCorrect && keystroke.key)` — the JS truthiness test on
`keystroke.key` excludes the empty string. -/
def addProblemKey (pk : List (String × Nat)) (k : KeystrokeData) :
    List (String × Nat) :=
  if k.isCorrect = false ∧ k.key ≠ "" then bumpKey pk k.key else pk

/-- The `problemKeys` object built by `calculateMetrics`. -/
def problemKeysOf (keystrokes : List KeystrokeData) : List (String × Nat) :=
  (typingKeystrokes keystrokes).foldl addProblemKey []

/-- `calculateMetrics` from dataCapture.ts.  `duration ? duration/(1000*60) : 0`
is the JS truthiness test: `null`, and `0` give 0; a negative duration
passes through and then fails the `durationMinutes > 0` guard. -/
noncomputable def calculateMetrics (keystrokes : List KeystrokeData)
    (sessionMetadata : SessionMetadata) : TypingMetrics :=
  let typingKs := typingKeystrokes keystrokes
  let totalKeystrokes := typingKs.length
  let correctKeystrokes := (typingKs.filter (fun k => k.isCorrect)).length
  let errorKeystrokes := totalKeystrokes - correctKeystrokes
  let accuracy : ℚ :=
    if 0 < totalKeystrokes then
      ((correctKeystrokes : ℚ) / (totalKeystrokes : ℚ)) * 100
    else 0
  let durationMinutes : ℚ :=
    match sessionMetadata.duration with
    | some d => if d = 0 then 0 else (d : ℚ) / (1000 * 60)
    | none => 0
  let charCount := typingKs.length
  let wpm : ℚ :=
    if 0 < durationMinutes then ((charCount : ℚ) / 5) / durationMinutes else 0
  let errorRate : ℚ :=
    if 0 < totalKeystrokes then (errorKeystrokes : ℚ) / (totalKeystrokes : ℚ)
    else 0
  let delays := interKeyDelays keystrokes
  let consistency : ℝ :=
    if 1 < delays.length then
      let mean := jsSum delays / (delays.length : ℚ)
      let variance :=
        jsSum (delays.map (fun d => (d - mean) ^ 2)) / (delays.length : ℚ)
      Real.sqrt (variance : ℝ)
    else 0
  { wpm := wpm
    accuracy := accuracy
    errorRate := errorRate
    totalKeystrokes := totalKeystrokes
    correctKeystrokes := correctKeystrokes
    errorKeystrokes := errorKeystrokes
    consistency := consistency
    problemKeys := problemKeysOf keystrokes }

/-- `generateSessionData` from dataCapture.ts: packages metadata, the raw
keystroke log (unchanged) and the computed metrics. -/
noncomputable def generateSessionData (sessionMetadata : SessionMetadata)
    (keystrokes : List KeystrokeData) : TypingSessionData :=
  { metadata := sessionMetadata
    keystrokes := keystrokes
    metrics := calculateMetrics keystrokes sessionMetadata }

/-- State of the `useTypingData` hook (src/app/lib/types.ts). -/
structure HookState where
  sessionMetadata : Option SessionMetadata
  keystrokes : List KeystrokeData
  lastKeystrokeTime : Option Int
  sessionId : Option String
  sessionData : Option TypingSessionData

/-- `captureKeystroke` of the `useTypingData` hook: a no-op when no session
metadata exists, otherwise records a keystroke, appends it to the log and
updates `lastKeystrokeTime`. -/
def captureKeystroke (st : HookState) (key : String) (expectedKey : Option String)
    (position : Nat) (actionType : ActionType) (newId : String) (now : Int) :
    HookState :=
  match st.sessionMetadata with
  | none => st
  | some _ =>
      let keystroke :=
        recordKeystroke newId now key expectedKey position actionType
          st.lastKeystrokeTime
      { st with
        keystrokes := st.keystrokes ++ [keystroke]
        lastKeystrokeTime := some keystroke.timestamp }

/-- `completeSession` of the `useTypingData` hook: returns `undefined`
(`none`) and leaves the state alone when no session metadata exists,
otherwise finalizes, assembles and returns the full session data. -/
noncomputable def completeSession (st : HookState) (userTranscript : String)
    (completionStatus : CompletionStatus) (now : Int) :
    HookState × Option TypingSessionData :=
  match st.sessionMetadata with
  | none => (st, none)
  | some m =>
      let finalizedMetadata := finalizeSession m userTranscript completionStatus now
      let fullSessionData := generateSessionData finalizedMetadata st.keystrokes
      ({ st with
          sessionMetadata := some finalizedMetadata
          sessionData := some fullSessionData
          sessionId := some fullSessionData.metadata.sessionId },
       some fullSessionData)

/-! Concrete fixtures used by witnesses and scenario parts of theorems. -/

/-- A concrete environment snapshot (the sample of
docs/DATA_POINTS_REFERENCE.md). -/
def envW : TypingEnvironment :=
  { deviceType := "desktop"
    browserName := "Chrome"
    browserVersion := "91"
    operatingSystem := "Windows 10"
    screenWidth := 1920
    screenHeight := 1080
    keyboardLayout := "QWERTY"
    inputMethod := "physical keyboard" }

/-- A concrete in-progress session metadata with the given duration. -/
def metaWith (d : Option Int) : SessionMetadata :=
  { sessionId := "s-1"
    startTime := 0
    endTime := none
    textPrompt := "the"
    userTranscript := ""
    completionStatus := .inProgress
    duration := d
    deviceInfo := envW }

/-- A concrete typing (`keypress`, single-character) keystroke. -/
def mkKey (key : String) (expectedKey : Option String) (correct : Bool)
    (delay : Option Int) : KeystrokeData :=
  { id := "k-" ++ key
    timestamp := 0
    key := key
    expectedKey := expectedKey
    isCorrect := correct
    position := 0
    actionType := .keypress
    interKeyDelay := delay }

/-- Three correct typing keystrokes, used by witnesses. -/
def ksW : List KeystrokeData :=
  [mkKey "t" (some "t") true none,
   mkKey "h" (some "h") true (some 100),
   mkKey "e" (some "e") true (some 100)]

/-- Spec-side arithmetic mean of a list of rationals (0 for the empty
list, via division by zero). -/
def specMean (l : List ℚ) : ℚ := l.sum / (l.length : ℚ)

/-- Spec-side population variance: mean of squared deviations from the
mean. -/
def popVariance (l : List ℚ) : ℚ :=
  (l.map (fun x => (x - specMean l) ^ 2)).sum / (l.length : ℚ)

/-- Spec-side population standard deviation. -/
noncomputable def popStdDev (l : List ℚ) : ℝ :=
  Real.sqrt ((popVariance l : ℚ) : ℝ)

/-- C1: `calculateMetrics` returns
`wpm = (totalKeystrokes / 5) / (duration / 60000)` when `duration / 60000 > 0`
(with `totalKeystrokes` the count of filtered typing keystrokes), and
`wpm = 0` when the duration is missing, zero, or negative; the function is
total, so no input raises an error. -/
theorem wpm_formula (keystrokes : List KeystrokeData) (m : SessionMetadata) :
    (∀ d : Int, m.duration = some d → 0 < d →
      (calculateMetrics keystrokes m).wpm =
        (((typingKeystrokes keystrokes).length : ℚ) / 5) / ((d : ℚ) / 60000)) ∧
    ((m.duration = none ∨ ∃ d : Int, m.duration = some d ∧ d ≤ 0) →
      (calculateMetrics keystrokes m).wpm = 0) := by
  constructor
  · intro d hd hdpos
    have hne : ¬ d = 0 := by omega
    have hdm : (0 : ℚ) < (d : ℚ) / (1000 * 60) := by
      apply div_pos (by exact_mod_cast hdpos) (by norm_num)
    simp only [calculateMetrics, hd, if_neg hne, if_pos hdm]
    norm_num
  · rintro (hd | ⟨d, hd, hdle⟩)
    · simp [calculateMetrics, hd]
    · rcases eq_or_lt_of_le hdle with hz | hneg
      · simp [calculateMetrics, hd, ← hz]
      · have hne : ¬ d = 0 := by omega
        have hdm : ¬ (0 : ℚ) < (d : ℚ) / (1000 * 60) := by
          rw [not_lt]
          apply div_nonpos_of_nonpos_of_nonneg (by exact_mod_cast hdle) (by norm_num)
        simp only [calculateMetrics, hd, if_neg hne, if_neg hdm]

/-- Witness for C1 at concrete inputs: three typing keystrokes with a
60000 ms duration give `wpm = (3/5)/1`, and a missing duration gives 0. -/
theorem wpm_formula_witness :
    ((metaWith (some 60000)).duration = some 60000 ∧ (0 : ℤ) < 60000) ∧
    (calculateMetrics ksW (metaWith (some 60000))).wpm = 3 / 5 ∧
    (calculateMetrics ksW (metaWith none)).wpm = 0 := by
  refine ⟨⟨rfl, by norm_num⟩, ?_, ?_⟩
  · have h := (wpm_formula ksW (metaWith (some 60000))).1 60000 rfl (by norm_num)
    rw [h, show (typingKeystrokes ksW).length = 3 from rfl]
    norm_num
  · exact (wpm_formula ksW (metaWith none)).2 (Or.inl rfl)

/-! Projection lemmas: the individual fields of `calculateMetrics`. -/

lemma calcM_total (keystrokes : List KeystrokeData) (m : SessionMetadata) :
    (calculateMetrics keystrokes m).totalKeystrokes =
      (typingKeystrokes keystrokes).length := rfl

lemma calcM_correct (keystrokes : List KeystrokeData) (m : SessionMetadata) :
    (calculateMetrics keystrokes m).correctKeystrokes =
      ((typingKeystrokes keystrokes).filter (fun k => k.isCorrect)).length := rfl

lemma calcM_error (keystrokes : List KeystrokeData) (m : SessionMetadata) :
    (calculateMetrics keystrokes m).errorKeystrokes =
      (typingKeystrokes keystrokes).length -
        ((typingKeystrokes keystrokes).filter (fun k => k.isCorrect)).length := rfl

lemma calcM_accuracy (keystrokes : List KeystrokeData) (m : SessionMetadata) :
    (calculateMetrics keystrokes m).accuracy =
      if 0 < (typingKeystrokes keystrokes).length then
        ((((typingKeystrokes keystrokes).filter (fun k => k.isCorrect)).length : ℚ) /
          ((typingKeystrokes keystrokes).length : ℚ)) * 100
      else 0 := rfl

lemma calcM_problemKeys (keystrokes : List KeystrokeData) (m : SessionMetadata) :
    (calculateMetrics keystrokes m).problemKeys = problemKeysOf keystrokes := rfl

lemma calcM_consistency (keystrokes : List KeystrokeData) (m : SessionMetadata) :
    (calculateMetrics keystrokes m).consistency =
      if 1 < (interKeyDelays keystrokes).length then
        Real.sqrt
          ((jsSum ((interKeyDelays keystrokes).map
            (fun d => (d - jsSum (interKeyDelays keystrokes) /
              ((interKeyDelays keystrokes).length : ℚ)) ^ 2)) /
            ((interKeyDelays keystrokes).length : ℚ) : ℚ) : ℝ)
      else 0 := rfl

/-- C3: accuracy always lies in [0, 100], correct and error keystrokes
partition the total, accuracy is `correct / total × 100` when the total is
positive and 0 when the total is 0. -/
theorem accuracy_bounds (keystrokes : List KeystrokeData) (m : SessionMetadata) :
    (0 ≤ (calculateMetrics keystrokes m).accuracy ∧
      (calculateMetrics keystrokes m).accuracy ≤ 100) ∧
    (calculateMetrics keystrokes m).correctKeystrokes +
        (calculateMetrics keystrokes m).errorKeystrokes =
      (calculateMetrics keystrokes m).totalKeystrokes ∧
    ((calculateMetrics keystrokes m).totalKeystrokes = 0 →
      (calculateMetrics keystrokes m).accuracy = 0) ∧
    (0 < (calculateMetrics keystrokes m).totalKeystrokes →
      (calculateMetrics keystrokes m).accuracy =
        ((calculateMetrics keystrokes m).correctKeystrokes : ℚ) /
          ((calculateMetrics keystrokes m).totalKeystrokes : ℚ) * 100) := by
  have hle := List.length_filter_le (fun k => k.isCorrect) (typingKeystrokes keystrokes)
  rw [calcM_accuracy, calcM_correct, calcM_error, calcM_total]
  by_cases ht : 0 < (typingKeystrokes keystrokes).length
  · have ht0 : (0 : ℚ) < ((typingKeystrokes keystrokes).length : ℚ) := by
      exact_mod_cast ht
    have hdiv :
        ((((typingKeystrokes keystrokes).filter (fun k => k.isCorrect)).length : ℚ) /
          ((typingKeystrokes keystrokes).length : ℚ)) ≤ 1 := by
      rw [div_le_one ht0]
      exact_mod_cast hle
    simp only [if_pos ht]
    refine ⟨⟨by positivity, ?_⟩, by omega, fun h => absurd h (by omega),
      fun _ => trivial⟩
    nlinarith [hdiv]
  · simp only [if_neg ht]
    exact ⟨⟨le_refl 0, by norm_num⟩, by omega, fun _ => trivial,
      fun h => absurd h ht⟩

/-- Witness for C3 at a concrete input: the three-keystroke fixture has
accuracy 100, within bounds, and 3 + 0 = 3. -/
theorem accuracy_bounds_witness :
    (0 ≤ (calculateMetrics ksW (metaWith none)).accuracy ∧
      (calculateMetrics ksW (metaWith none)).accuracy ≤ 100) ∧
    (calculateMetrics ksW (metaWith none)).correctKeystrokes +
        (calculateMetrics ksW (metaWith none)).errorKeystrokes =
      (calculateMetrics ksW (metaWith none)).totalKeystrokes ∧
    (calculateMetrics ksW (metaWith none)).accuracy =
      ((calculateMetrics ksW (metaWith none)).correctKeystrokes : ℚ) /
        ((calculateMetrics ksW (metaWith none)).totalKeystrokes : ℚ) * 100 := by
  have h := accuracy_bounds ksW (metaWith none)
  exact ⟨h.1, h.2.1, h.2.2.2 (by rw [calcM_total]; exact Nat.succ_pos 2)⟩

/-- C4: the metrics of an empty keystroke list are exactly all zero with an
empty problem-key map, for every session metadata. -/
theorem empty_keystrokes_metrics (m : SessionMetadata) :
    calculateMetrics [] m =
      { wpm := 0, accuracy := 0, errorRate := 0, totalKeystrokes := 0,
        correctKeystrokes := 0, errorKeystrokes := 0, consistency := 0,
        problemKeys := [] } := by
  simp [calculateMetrics, typingKeystrokes, interKeyDelays, problemKeysOf]

lemma foldl_add_eq (l : List ℚ) : ∀ a : ℚ, l.foldl (fun s d => s + d) a = a + l.sum := by
  induction l with
  | nil => simp
  | cons x xs ih => intro a; simp [ih, add_assoc]

lemma jsSum_eq_sum (l : List ℚ) : jsSum l = l.sum := by
  simp [jsSum, foldl_add_eq]

/-- Keystrokes whose present inter-key delays are 100, 200, 300 ms. -/
def ksC : List KeystrokeData :=
  [mkKey "a" (some "a") true (some 100),
   mkKey "b" (some "b") true (some 200),
   mkKey "c" (some "c") true (some 300)]

/-- C2: the consistency of `calculateMetrics` is the population standard
deviation of the present inter-key delays of the filtered typing
keystrokes, and 0 when fewer than 2 delays are present; on delays
100, 200, 300 the mean is 200, the population variance 20000/3 ≈ 6666.67,
and the consistency is √(20000/3) ≈ 81.65 (strictly between 81.6 and
81.7). -/
theorem consistency_spec (keystrokes : List KeystrokeData) (m : SessionMetadata) :
    ((calculateMetrics keystrokes m).consistency =
      if 1 < (interKeyDelays keystrokes).length then
        popStdDev (interKeyDelays keystrokes)
      else 0) ∧
    ((interKeyDelays keystrokes).length < 2 →
      (calculateMetrics keystrokes m).consistency = 0) ∧
    (interKeyDelays ksC = [100, 200, 300] ∧
      specMean (interKeyDelays ksC) = 200 ∧
      popVariance (interKeyDelays ksC) = 20000 / 3 ∧
      (calculateMetrics ksC (metaWith none)).consistency ^ 2 = 20000 / 3 ∧
      (81.6 : ℝ) < (calculateMetrics ksC (metaWith none)).consistency ∧
      (calculateMetrics ksC (metaWith none)).consistency < 81.7) := by
  have hmain : ∀ (ks : List KeystrokeData) (m' : SessionMetadata),
      (calculateMetrics ks m').consistency =
        if 1 < (interKeyDelays ks).length then popStdDev (interKeyDelays ks)
        else 0 := by
    intro ks m'
    rw [calcM_consistency]
    split_ifs with h
    · simp only [popStdDev, popVariance, specMean, jsSum_eq_sum]
    · rfl
  have hd : interKeyDelays ksC = [100, 200, 300] := by decide
  have hlen : 1 < (interKeyDelays ksC).length := by rw [hd]; norm_num
  have hvar : jsSum ((interKeyDelays ksC).map
      (fun d => (d - jsSum (interKeyDelays ksC) /
        ((interKeyDelays ksC).length : ℚ)) ^ 2)) /
      ((interKeyDelays ksC).length : ℚ) = 20000 / 3 := by
    simp only [jsSum_eq_sum, hd]
    norm_num [List.sum_cons, List.sum_nil]
  have hcon : (calculateMetrics ksC (metaWith none)).consistency =
      Real.sqrt (((20000 : ℚ) / 3 : ℚ) : ℝ) := by
    rw [calcM_consistency, if_pos hlen, hvar]
  have hnn : (0 : ℝ) ≤ (calculateMetrics ksC (metaWith none)).consistency := by
    rw [hcon]; exact Real.sqrt_nonneg _
  have hsq : (calculateMetrics ksC (metaWith none)).consistency ^ 2 =
      (20000 : ℝ) / 3 := by
    rw [hcon, Real.sq_sqrt (by positivity)]
    norm_num
  refine ⟨hmain keystrokes m, fun hlt => ?_, hd,
    by rw [specMean, hd]; norm_num [List.sum_cons, List.sum_nil],
    by rw [popVariance, specMean, hd]; norm_num [List.sum_cons, List.sum_nil],
    hsq, ?_, ?_⟩
  · rw [hmain keystrokes m, if_neg (by omega)]
  · nlinarith [hsq, hnn]
  · nlinarith [hsq, hnn]

/-- Witness for C2: a list with a single present delay has fewer than 2
delays and consistency 0. -/
theorem consistency_spec_witness :
    (interKeyDelays [mkKey "a" (some "a") true (some 100)]).length < 2 ∧
    (calculateMetrics [mkKey "a" (some "a") true (some 100)]
      (metaWith none)).consistency = 0 :=
  ⟨by decide,
   (consistency_spec [mkKey "a" (some "a") true (some 100)]
      (metaWith none)).2.1 (by decide)⟩

/-! Invariants of the `problemKeys` accumulation. -/

/-- Whether a keystroke contributes an error for key `k` in the
`problemKeys` loop. -/
def errKey (k : String) (kk : KeystrokeData) : Bool :=
  decide (kk.isCorrect = false ∧ kk.key ≠ "" ∧ kk.key = k)

lemma getCount_bumpKey (pk : List (String × Nat)) (k k' : String) :
    getCount (bumpKey pk k) k' = getCount pk k' + (if k = k' then 1 else 0) := by
  induction pk with
  | nil =>
      simp only [bumpKey, getCount]
      split_ifs <;> simp_all
  | cons p rest ih =>
      obtain ⟨q, v⟩ := p
      simp only [bumpKey, getCount]
      split_ifs <;> simp_all [getCount]

lemma hasKey_bumpKey (pk : List (String × Nat)) (k k' : String) :
    hasKey (bumpKey pk k) k' = (hasKey pk k' || decide (k = k')) := by
  induction pk with
  | nil =>
      simp only [bumpKey, hasKey]
      simp
  | cons p rest ih =>
      obtain ⟨q, v⟩ := p
      simp only [bumpKey, hasKey]
      split_ifs <;> cases hkk : decide (k = k') <;>
        cases hr : hasKey rest k' <;> simp_all [hasKey]

lemma getCount_foldl (l : List KeystrokeData) (pk : List (String × Nat))
    (k : String) :
    getCount (l.foldl addProblemKey pk) k =
      getCount pk k + l.countP (errKey k) := by
  induction l generalizing pk with
  | nil => simp
  | cons a l ih =>
      rw [List.foldl_cons, ih, List.countP_cons]
      simp only [addProblemKey]
      by_cases h : a.isCorrect = false ∧ a.key ≠ ""
      · rw [if_pos h, getCount_bumpKey]
        by_cases h2 : a.key = k
        · have hkne : k ≠ "" := h2 ▸ h.2
          have he : errKey k a = true := by simp [errKey, h.1, h2, hkne]
          simp [he, h2]
          omega
        · have he : errKey k a = false := by simp [errKey]; tauto
          simp [he, h2]
      · rw [if_neg h]
        have he : errKey k a = false := by simp [errKey]; tauto
        simp [he]

lemma hasKey_foldl (l : List KeystrokeData) (pk : List (String × Nat))
    (k : String) :
    hasKey (l.foldl addProblemKey pk) k = true ↔
      (hasKey pk k = true ∨ 0 < l.countP (errKey k)) := by
  induction l generalizing pk with
  | nil => simp
  | cons a l ih =>
      rw [List.foldl_cons, List.countP_cons, ih]
      simp only [addProblemKey]
      by_cases h : a.isCorrect = false ∧ a.key ≠ ""
      · rw [if_pos h, hasKey_bumpKey]
        by_cases h2 : a.key = k
        · have hkne : k ≠ "" := h2 ▸ h.2
          have he : errKey k a = true := by simp [errKey, h.1, h2, hkne]
          simp [he, h2]
        · have he : errKey k a = false := by simp [errKey]; tauto
          simp [he, h2]
      · rw [if_neg h]
        have he : errKey k a = false := by simp [errKey]; tauto
        simp [he]

/-- The number of filtered typing keystrokes that press key `k`
incorrectly. -/
def errorCountFor (keystrokes : List KeystrokeData) (k : String) : Nat :=
  ((typingKeystrokes keystrokes).filter
    (fun kk => decide (kk.isCorrect = false ∧ kk.key = k))).length

lemma typing_key_ne_empty {keystrokes : List KeystrokeData}
    {kk : KeystrokeData} (h : kk ∈ typingKeystrokes keystrokes) :
    kk.key ≠ "" := by
  have := List.of_mem_filter h
  intro he
  simp [he] at this

lemma countP_errKey_eq (keystrokes : List KeystrokeData) (k : String) :
    (typingKeystrokes keystrokes).countP (errKey k) = errorCountFor keystrokes k := by
  rw [errorCountFor, ← List.countP_eq_length_filter]
  apply List.countP_congr
  intro kk hk
  have hne := typing_key_ne_empty hk
  simp [errKey, hne, and_assoc]

/-- The problem-keys scenario of the spec: errors on 'k' and 'c', one
correct 'e'. -/
def ksP : List KeystrokeData :=
  [mkKey "k" (some "c") false none,
   mkKey "c" (some "k") false none,
   mkKey "e" (some "e") true none]

/-- C5: `problemKeys` maps each key to the number of filtered typing
keystrokes with that key and `isCorrect = false`, has an entry for a key
exactly when that key has at least one error, and on the three-keystroke
scenario equals `{k: 1, c: 1}` with `errorKeystrokes = 2` and
accuracy 100/3 ≈ 33.33. -/
theorem problem_keys_spec (keystrokes : List KeystrokeData)
    (m : SessionMetadata) (k : String) :
    getCount (calculateMetrics keystrokes m).problemKeys k =
      errorCountFor keystrokes k ∧
    (hasKey (calculateMetrics keystrokes m).problemKeys k = true ↔
      0 < errorCountFor keystrokes k) ∧
    ((calculateMetrics ksP (metaWith none)).problemKeys =
        [("k", 1), ("c", 1)] ∧
      (calculateMetrics ksP (metaWith none)).errorKeystrokes = 2 ∧
      (calculateMetrics ksP (metaWith none)).accuracy = 100 / 3) := by
  refine ⟨?_, ?_, by decide, by decide, ?_⟩
  · rw [calcM_problemKeys, problemKeysOf, getCount_foldl, countP_errKey_eq]
    simp [getCount]
  · rw [calcM_problemKeys, problemKeysOf, hasKey_foldl, countP_errKey_eq]
    simp [hasKey]
  · rw [calcM_accuracy,
      if_pos (show 0 < (typingKeystrokes ksP).length by decide),
      show ((typingKeystrokes ksP).filter (fun k => k.isCorrect)).length = 1
        from rfl,
      show (typingKeystrokes ksP).length = 3 from rfl]
    norm_num

/-- Witness for C5: on the scenario list, key 'k' has one error and an
entry, key 'e' has none and no entry. -/
theorem problem_keys_spec_witness :
    getCount (calculateMetrics ksP (metaWith none)).problemKeys "k" = 1 ∧
    hasKey (calculateMetrics ksP (metaWith none)).problemKeys "k" = true ∧
    hasKey (calculateMetrics ksP (metaWith none)).problemKeys "e" = false := by
  refine ⟨?_, ?_, ?_⟩
  · rw [(problem_keys_spec ksP (metaWith none) "k").1]
    decide
  · rw [(problem_keys_spec ksP (metaWith none) "k").2.1]
    decide
  · have h := (problem_keys_spec ksP (metaWith none) "e").2.1
    have : ¬ 0 < errorCountFor ksP "e" := by decide
    simp [this] at h
    exact h

/-- The first two keystrokes of the sample session in
docs/DATA_POINTS_REFERENCE.md: typing keystrokes captured with the
documented `keydown` convention. -/
def ksDoc : List KeystrokeData :=
  [{ id := "123e4567-e89b-12d3-a456-426614174001"
     timestamp := 1623456789100
     key := "T"
     expectedKey := some "T"
     isCorrect := true
     position := 0
     actionType := .keydown
     interKeyDelay := none },
   { id := "123e4567-e89b-12d3-a456-426614174002"
     timestamp := 1623456789300
     key := "h"
     expectedKey := some "h"
     isCorrect := true
     position := 1
     actionType := .keydown
     interKeyDelay := some 200 }]

/-- A Backspace control keystroke (multi-character `key`). -/
def ksBack : KeystrokeData :=
  { id := "b"
    timestamp := 0
    key := "Backspace"
    expectedKey := none
    isCorrect := false
    position := 0
    actionType := .keypress
    interKeyDelay := none }

/-- C6 (evaluation at the failing input): `calculateMetrics` filters on
`actionType = keypress`, so the single-character typing keystrokes of the
repository's own documented `keydown` capture convention contribute to no
metric — the documented sample log yields all-zero metrics, while the very
same events relabelled `keypress` are counted; Backspace is excluded by
the single-character test, and the raw log is exported unchanged by
`generateSessionData`. -/
theorem keydown_capture_excluded (keystrokes : List KeystrokeData)
    (m : SessionMetadata) :
    typingKeystrokes ksDoc = [] ∧
    (calculateMetrics ksDoc m).totalKeystrokes = 0 ∧
    (calculateMetrics ksDoc m).correctKeystrokes = 0 ∧
    (calculateMetrics ksDoc m).accuracy = 0 ∧
    (calculateMetrics ksDoc m).consistency = 0 ∧
    (calculateMetrics ksDoc m).problemKeys = [] ∧
    (typingKeystrokes
        (ksDoc.map (fun kk => { kk with actionType := ActionType.keypress }))).length = 2 ∧
    typingKeystrokes [ksBack] = [] ∧
    (generateSessionData m keystrokes).keystrokes = keystrokes := by
  refine ⟨by decide, rfl, rfl, ?_, ?_, rfl, by decide, by decide, rfl⟩
  · rw [calcM_accuracy, if_neg (by decide)]
  · rw [calcM_consistency, if_neg (by decide)]

/-- A concrete finalized (terminal) session metadata. -/
def mDone : SessionMetadata := finalizeSession (metaWith none) "the" .completed 5000

/-- Counterexample to C7: each alleged usage error is silently accepted by
the code at a concrete input — a second `finalizeSession` on an already
terminal session returns a normal record with the status and duration
overwritten, `captureKeystroke` appends to a session whose status is
terminal, and `generateSessionData` assembles an in-progress session. -/
theorem usage_errors_silent_counterexample :
    mDone.completionStatus = CompletionStatus.completed ∧
    (finalizeSession mDone "xy" .abandoned 9000).completionStatus =
      CompletionStatus.abandoned ∧
    (finalizeSession mDone "xy" .abandoned 9000).duration = some 9000 ∧
    (captureKeystroke ⟨some mDone, [], none, none, none⟩ "a" (some "a") 0
        .keypress "id1" 9100).keystrokes.length = 1 ∧
    (metaWith none).completionStatus = CompletionStatus.inProgress ∧
    (generateSessionData (metaWith none) []).metadata.completionStatus =
      CompletionStatus.inProgress := by
  exact ⟨rfl, rfl, rfl, rfl, rfl, rfl⟩

/-- C7 amended: none of the three misuses raises — a second
`finalizeSession` silently overwrites the first (it coincides with calling
`finalizeSession` once with the later arguments, so the first duration is
corrupted), `captureKeystroke` appends whenever session metadata exists
regardless of its status, and `generateSessionData` assembles for any
status. -/
theorem usage_errors_silent (m : SessionMetadata) (tr1 tr2 : String)
    (c1 c2 : CompletionStatus) (t1 t2 : Int) (st : HookState) (key : String)
    (ek : Option String) (pos : Nat) (act : ActionType) (nid : String)
    (now : Int) (keystrokes : List KeystrokeData) :
    finalizeSession (finalizeSession m tr1 c1 t1) tr2 c2 t2 =
      finalizeSession m tr2 c2 t2 ∧
    (finalizeSession (finalizeSession m tr1 c1 t1) tr2 c2 t2).duration =
      some (t2 - m.startTime) ∧
    (st.sessionMetadata = some m →
      (captureKeystroke st key ek pos act nid now).keystrokes =
        st.keystrokes ++
          [recordKeystroke nid now key ek pos act st.lastKeystrokeTime]) ∧
    (generateSessionData m keystrokes).metadata = m := by
  refine ⟨rfl, rfl, fun h => ?_, rfl⟩
  simp [captureKeystroke, h]

/-- Witness for C7's amended statement: appending to a completed session at
a concrete state succeeds and grows the log. -/
theorem usage_errors_silent_witness :
    (⟨some mDone, [], none, none, none⟩ : HookState).sessionMetadata =
      some mDone ∧
    (captureKeystroke ⟨some mDone, [], none, none, none⟩ "a" (some "a") 0
        .keypress "id1" 9100).keystrokes =
      [recordKeystroke "id1" 9100 "a" (some "a") 0 .keypress none] := by
  constructor
  · rfl
  · have h := (usage_errors_silent mDone "t1" "t2" .completed .abandoned 1 2
      (⟨some mDone, [], none, none, none⟩ : HookState) "a" (some "a") 0
      .keypress "id1" 9100 []).2.2.1 rfl
    simpa using h

/-- Counterexample to C8: with a previous timestamp of 200 and a current
timestamp of 100 (clock skew), `recordKeystroke` stores the negative delay
-100 instead of rejecting or clamping it. -/
theorem negative_delay_counterexample :
    (recordKeystroke "id0" 100 "x" (some "x") 0 .keypress
      (some 200)).interKeyDelay = some (-100) ∧ ((-100 : ℤ) < 0) := by
  exact ⟨rfl, by decide⟩

/-- C8 amended: whenever the previous timestamp is nonzero,
`recordKeystroke` stores `now - previous` unchanged, so a previous
timestamp later than the current one yields a negative recorded delay —
nothing is rejected or clamped. -/
theorem negative_delay_propagates (newId : String) (now : Int) (key : String)
    (ek : Option String) (pos : Nat) (act : ActionType) (t : Int)
    (ht : t ≠ 0) (hlt : now < t) :
    ∃ d : Int,
      (recordKeystroke newId now key ek pos act (some t)).interKeyDelay =
        some d ∧ d < 0 := by
  refine ⟨now - t, ?_, by omega⟩
  simp [recordKeystroke, ht]

/-- Witness for C8's amended statement at a concrete skewed input. -/
theorem negative_delay_propagates_witness :
    (200 : ℤ) ≠ 0 ∧ (100 : ℤ) < 200 ∧
    ∃ d : Int,
      (recordKeystroke "id0" 100 "x" (some "x") 0 .keypress
        (some 200)).interKeyDelay = some d ∧ d < 0 :=
  ⟨by decide, by decide,
   negative_delay_propagates "id0" 100 "x" (some "x") 0 .keypress 200
     (by decide) (by decide)⟩

/-- Counterexample to C9: a previous keystroke timestamp of 0 exists and
is passed to `recordKeystroke`, yet the recorded `interKeyDelay` is absent
rather than `5 - 0` — the JS truthiness test `lastKeystrokeTime ? ... : null`
treats the timestamp 0 like a missing one. -/
theorem delay_zero_prev_counterexample :
    (recordKeystroke "id0" 5 "x" (some "x") 0 .keypress
      (some 0)).interKeyDelay = none ∧
    ¬ (recordKeystroke "id0" 5 "x" (some "x") 0 .keypress
        (some 0)).interKeyDelay = some (5 - 0) := by
  exact ⟨rfl, by decide⟩

/-- C9 amended: `interKeyDelay` equals the current minus the previous
timestamp whenever a previous timestamp is given and is nonzero; it is
absent when no previous timestamp is given and also in the edge case of a
previous timestamp equal to 0. -/
theorem interkey_delay_formula (newId : String) (now : Int) (key : String)
    (ek : Option String) (pos : Nat) (act : ActionType) :
    (∀ t : Int, t ≠ 0 →
      (recordKeystroke newId now key ek pos act (some t)).interKeyDelay =
        some (now - t)) ∧
    (recordKeystroke newId now key ek pos act none).interKeyDelay = none ∧
    (∀ t : Int,
      (recordKeystroke newId now key ek pos act (some t)).interKeyDelay =
        none ↔ t = 0) := by
  refine ⟨fun t ht => by simp [recordKeystroke, ht], rfl, fun t => ?_⟩
  by_cases ht : t = 0 <;> simp [recordKeystroke, ht]

/-- Witness for C9's amended statement: previous timestamp 7, current 10,
recorded delay 3. -/
theorem interkey_delay_formula_witness :
    (7 : ℤ) ≠ 0 ∧
    (recordKeystroke "id0" 10 "x" (some "x") 0 .keypress
      (some 7)).interKeyDelay = some 3 := by
  refine ⟨by decide, ?_⟩
  have h := (interkey_delay_formula "id0" 10 "x" (some "x") 0 .keypress).1 7
    (by decide)
  simpa using h

/-- C10: before any session is initialized (`sessionMetadata = none`), the
hook's `captureKeystroke` leaves the state untouched and `completeSession`
returns `undefined` with the state untouched — silent no-ops, not
errors. -/
theorem uninitialized_noop (st : HookState) (key : String) (ek : Option String)
    (pos : Nat) (act : ActionType) (nid : String) (now : Int) (tr : String)
    (c : CompletionStatus) (h : st.sessionMetadata = none) :
    captureKeystroke st key ek pos act nid now = st ∧
    completeSession st tr c now = (st, none) := by
  constructor
  · simp [captureKeystroke, h]
  · simp [completeSession, h]

/-- Witness for C10 at the empty hook state. -/
theorem uninitialized_noop_witness :
    (⟨none, [], none, none, none⟩ : HookState).sessionMetadata = none ∧
    captureKeystroke ⟨none, [], none, none, none⟩ "a" (some "a") 0 .keypress
        "id1" 10 = ⟨none, [], none, none, none⟩ ∧
    completeSession ⟨none, [], none, none, none⟩ "tr" .completed 10 =
      (⟨none, [], none, none, none⟩, none) := by
  have h := uninitialized_noop (⟨none, [], none, none, none⟩ : HookState) "a"
    (some "a") 0 .keypress "id1" 10 "tr" .completed rfl
  exact ⟨rfl, h.1, h.2⟩

end ElephantType
